import Mathlib

/-!
Shallow embedding of `dtdl_tree_generator.py` (classes `TreeNode` and
`TreeGenerator`): the graph builder `build_from_connections` and the
recursive renderer `_render_node_html` / `generate_tree_html`, together
with the helper `_get_unit`.

Modelling conventions:
* A connection dict `{"source": s, "target": t}` is a `Conn`.
* Python `dict` / assoc data are modelled as `List (String × _)` in
  insertion order, looked up with `List.lookup` (dict keys are unique in
  Python; lookup takes the first binding).
* The Python `set` `all_ids` has unspecified iteration order in CPython;
  we fix first-appearance order (source before target, edge-list order),
  which is one legitimate refinement.  All root/children claims proved
  below are either order-insensitive or about this fixed order.
* Node identity in Python is object identity of the single `TreeNode`
  stored in `self.nodes[id]`; we key everything by the identifier string,
  which captures the sharing (a multi-parent child is one node appearing
  in two child-id lists).
* `self.flow_model.telemetry_data[id][-1].get("data", {})` — the latest
  telemetry record's data map — is modelled directly as the per-id map
  `Env.telemetryData`.
* Telemetry values are Python objects formatted with `f"{value:.1f}"`;
  we model a value as either a numeric sample (held in fixed-point tenths,
  `TelemetryValue.num`) or a string (`TelemetryValue.str`).  Formatting a
  string with format code `f` raises `ValueError` in Python; the
  formatter returns `Option` and the renderer propagates the failure as
  `RenderErr.typeError`.
* The unbounded recursion of `_render_node_html` is modelled with fuel:
  running out of fuel is `RenderErr.outOfFuel`, standing for the
  nontermination / stack overflow of the Python recursion.
-/

namespace DtdlTree

/-- One entry of the `connections` list: `{"source": ..., "target": ...}`. -/
structure Conn where
  source : String
  target : String
deriving DecidableEq, Repr

/-- A telemetry sample: either numeric (fixed-point tenths) or a string. -/
inductive TelemetryValue where
  | num (tenths : Int)
  | str (s : String)
deriving DecidableEq, Repr

/-- Is the sample numeric (formattable with `:.1f`)? -/
def TelemetryValue.isNum : TelemetryValue → Bool
  | .num _ => true
  | .str _ => false

/-- The twin payload stored in `TreeNode.data`: the code reads
`data.get("$metadata", {}).get("$model", "")` and
`data.get("properties", {})`; property values enter the tooltip via
`f"{key}: {value}"`, so we keep them as their rendered strings. -/
structure TwinData where
  modelId : String
  properties : List (String × String)
deriving DecidableEq, Repr

/-- The empty payload `{}` used when `twin_instances.get(node_id, {})`
misses: `$model` defaults to `""` and `properties` to `{}`. -/
def emptyTwin : TwinData := ⟨"", []⟩

/-- The read-only collaborators of `TreeGenerator`:
`flow_model.twin_instances`, the latest telemetry data map per twin id
(`telemetry_data[id][-1]["data"]`), and `flow_model.parser.models`
reduced to the `display_name` the renderer reads. -/
structure Env where
  twinInstances : List (String × TwinData)
  telemetryData : List (String × List (String × TelemetryValue))
  models : List (String × String)
deriving Repr

/-- Append an element to a list-set if absent (`set.add` with
first-appearance order). -/
def insertUniq (xs : List String) (x : String) : List String :=
  if x ∈ xs then xs else xs ++ [x]

/-- The node universe `all_ids`: every identifier appearing as a source
or target, deduplicated, in first-appearance order. -/
def allIds (conns : List Conn) : List String :=
  conns.foldl (fun acc c => insertUniq (insertUniq acc c.source) c.target) []

/-- The mutable linking state of `build_from_connections`: the child list
and parent back-reference of every `TreeNode`, plus the `children_ids`
set. -/
structure LinkState where
  children : String → List String
  parent : String → Option String
  childTargets : List String

/-- One iteration of the linking loop: `if source_id in self.nodes and
target_id in self.nodes: self.nodes[source_id].add_child(...);
children_ids.add(target_id)`.  `add_child` appends the child and
overwrites the child's parent back-reference. -/
def linkStep (univ : List String) (st : LinkState) (c : Conn) : LinkState :=
  if c.source ∈ univ ∧ c.target ∈ univ then
    { children := fun x => if x = c.source then st.children x ++ [c.target] else st.children x
      parent := fun x => if x = c.target then some c.source else st.parent x
      childTargets := insertUniq st.childTargets c.target }
  else st

/-- The initial linking state: fresh nodes have `children = []` and
`parent = None`; `children_ids` starts empty. -/
def initLinkState : LinkState := ⟨fun _ => [], fun _ => none, []⟩

/-- Run the linking loop over the whole connection list. -/
def buildLinks (conns : List Conn) : LinkState :=
  conns.foldl (linkStep (allIds conns)) initLinkState

/-- The result of `build_from_connections`: node universe (keys of
`self.nodes` in insertion order), per-node payload, child lists, parent
back-references and the `self.roots` list. -/
structure Forest where
  nodeIds : List String
  nodeData : String → TwinData
  children : String → List String
  parent : String → Option String
  roots : List String

/-- `TreeGenerator.build_from_connections`: create one node per
identifier with payload `twin_instances.get(id, {})`, link every edge in
order, and set `roots` to the nodes whose id never occurred as a
target. -/
def buildForest (env : Env) (conns : List Conn) : Forest :=
  let univ := allIds conns
  let st := buildLinks conns
  { nodeIds := univ
    nodeData := fun id => (env.twinInstances.lookup id).getD emptyTwin
    children := st.children
    parent := st.parent
    roots := univ.filter (fun id => !(st.childTargets.contains id)) }

/-- Python's `str.lower()`, modelled per character (the identifiers and
field names of this program are ASCII, where this agrees with Python). -/
def lowerStr (s : String) : String :=
  String.mk (s.toList.map Char.toLower)

/-- Substring containment, `pat in s` for Python strings. -/
def strContains (s pat : String) : Bool :=
  s.toList.tails.any (fun suffix => pat.toList.isPrefixOf suffix)

/-- `TreeGenerator._get_unit`: keyword → unit lookup on the lowered
telemetry field name, first match wins, no match yields `""`. -/
def getUnit (key : String) : String :=
  let keyLower := lowerStr key
  if strContains keyLower "temp" then "°C"
  else if strContains keyLower "current" then "A"
  else if strContains keyLower "pressure" then "bar"
  else if strContains keyLower "flow" then "L/s"
  else if strContains keyLower "level" then "%"
  else if strContains keyLower "vibration" then "Hz"
  else ""

/-- Python `f"{value:.1f}"`: succeeds on a numeric value (rendered from
the fixed-point tenths, sign first as Python prints it), raises
`ValueError` (`none`) on a string. -/
def formatFixed1 : TelemetryValue → Option String
  | .num t => some ((if t < 0 then "-" else "")
      ++ toString (t.natAbs / 10) ++ "." ++ toString (t.natAbs % 10))
  | .str _ => none

/-- The property lines of the tooltip: one `f"{key}: {value}"` line per
property whose key is not `"status"`, in insertion order. -/
def propLines (props : List (String × String)) : List String :=
  (props.filter (fun kv => kv.1 != "status")).map (fun kv => kv.1 ++ ": " ++ kv.2)

/-- The telemetry lines of the tooltip: the first three entries of the
latest telemetry map, each `f"{key}: {value:.1f}{unit}"`; a non-numeric
value raises (`none`). -/
def telLines (telemetry : List (String × TelemetryValue)) : Option (List String) :=
  (telemetry.take 3).mapM fun kv =>
    (formatFixed1 kv.2).map (fun v => kv.1 ++ ": " ++ v ++ getUnit kv.1)

/-- Spec-side description of the telemetry lines: the first three
entries, each `key: value` with the keyword-table unit suffix.  Stated
from the spec's words, to be compared with `telLines` (which can fail on
a non-numeric value). -/
def telItems (telemetry : List (String × TelemetryValue)) : List String :=
  (telemetry.take 3).map fun kv =>
    kv.1 ++ ": " ++ (formatFixed1 kv.2).getD "" ++ getUnit kv.1

/-- The full `tooltip_items` list (properties then telemetry). -/
def tooltipItems (props : List (String × String))
    (telemetry : List (String × TelemetryValue)) : Option (List String) :=
  (telLines telemetry).map (fun tl => propLines props ++ tl)

/-- The tooltip string: `"\\A".join(tooltip_items) if tooltip_items else
model_name`. -/
def buildTooltip (modelName : String) (props : List (String × String))
    (telemetry : List (String × TelemetryValue)) : Option String :=
  (tooltipItems props telemetry).map fun items =>
    if items.isEmpty then modelName else String.intercalate "\\A" items

/-- The CSS class string of a node: `"node"`, plus pump tags (with a
running/stopped state tag from the status property) when the lowered id
contains `"pump"`, else a tank tag when it contains `"tank"`. -/
def nodeClass (id status : String) : String :=
  let base := "node"
  if strContains (lowerStr id) "pump" then
    let c := base ++ " pump-node"
    if status == "running" then c ++ " running"
    else if status == "stopped" then c ++ " stopped"
    else c
  else if strContains (lowerStr id) "tank" then base ++ " tank-node"
  else base

/-- The class string split into its tags (split on the space
character). -/
def classTags (id status : String) : List String :=
  ((nodeClass id status).toList.splitOn ' ').map (fun cs => String.mk cs)

/-- How a render pass can fail: `outOfFuel` models the unguarded
recursion never returning (cyclic input), `typeError` models the
`ValueError` raised by `f"{value:.1f}"` on a non-numeric value. -/
inductive RenderErr where
  | outOfFuel
  | typeError
deriving DecidableEq, Repr

/-- The structured content `_render_node_html` emits for one node:
identifier, resolved display name, status, tooltip, CSS class string and
the recursively rendered children (in stored child order). -/
structure RenderedNode where
  id : String
  modelName : String
  status : String
  tooltip : String
  cssClass : String
  children : List RenderedNode
deriving Repr

/-- `TreeGenerator._render_node_html`, with fuel bounding the recursion
depth: resolve the display name (`"Unknown"` when the model id is not in
the registry), fetch the latest telemetry map (empty when absent), build
the tooltip, classify the node, then recurse into the children in stored
order. -/
def renderNode (env : Env) (f : Forest) : Nat → String → Except RenderErr RenderedNode
  | 0, _ => .error .outOfFuel
  | fuel + 1, id =>
    let data := f.nodeData id
    let modelName := (env.models.lookup data.modelId).getD "Unknown"
    let telemetry := (env.telemetryData.lookup id).getD []
    let props := data.properties
    let status := (props.lookup "status").getD ""
    match buildTooltip modelName props telemetry with
    | none => .error .typeError
    | some tooltip => do
      let kids ← (f.children id).mapM (fun c => renderNode env f fuel c)
      pure ⟨id, modelName, status, tooltip, nodeClass id status, kids⟩

/-- The rendering loop of `generate_tree_html`: render every root in
`self.roots` order. -/
def renderForest (env : Env) (f : Forest) (fuel : Nat) :
    Except RenderErr (List RenderedNode) :=
  f.roots.mapM (fun r => renderNode env f fuel r)

/-- `Reaches conns s t`: node `t` is reachable from node `s` along
source→target edges of the connection list — `t` occurs in the walk
below `s`. -/
inductive Reaches (conns : List Conn) : String → String → Prop where
  | refl (s : String) : Reaches conns s s
  | step {s : String} {c : Conn} (h1 : Reaches conns s c.source)
      (h2 : c ∈ conns) : Reaches conns s c.target

/-- The number of node occurrences the walk visits below a node: one for
the node itself plus, recursively, the occurrences below each child in
the stored child list (a multi-parent child is counted once per visit,
as the renderer re-renders it).  Fuel-bounded like the renderer. -/
def occCount (f : Forest) : Nat → String → Option Nat
  | 0, _ => none
  | fuel + 1, id =>
    ((f.children id).mapM (fun c => occCount f fuel c)).map (fun ns => 1 + ns.sum)

mutual

/-- The number of rendered records in one rendered node (itself plus all
its rendered descendants): the work the walk spent below that node. -/
def renderSize : RenderedNode → Nat
  | ⟨_, _, _, _, _, kids⟩ => 1 + renderSizeList kids

/-- The total number of rendered records across a list of rendered
nodes. -/
def renderSizeList : List RenderedNode → Nat
  | [] => 0
  | r :: rs => renderSize r + renderSizeList rs

end

/-! ### Concrete fixtures used by the example parts of the claims -/

/-- An empty collaborator environment: no twins, no telemetry, no models. -/
def env0 : Env := ⟨[], [], []⟩

/-- The spec's root example: edges `[(A,B),(A,C),(C,D)]`. -/
def connsRootEx : List Conn := [⟨"A", "B"⟩, ⟨"A", "C"⟩, ⟨"C", "D"⟩]

/-- A duplicated edge: `[(A,B),(A,B)]`. -/
def connsDupEx : List Conn := [⟨"A", "B"⟩, ⟨"A", "B"⟩]

/-- The multi-parent example: edges `[(A,C),(B,C)]`. -/
def connsSharedEx : List Conn := [⟨"A", "C"⟩, ⟨"B", "C"⟩]

/-- Edges that cycle back to a node reachable from the root `R`. -/
def connsCycEx : List Conn := [⟨"R", "A"⟩, ⟨"A", "B"⟩, ⟨"B", "A"⟩]

/-- A ranking showing `connsRootEx` is acyclic (targets rank below
sources). -/
def rankRootEx (id : String) : Nat :=
  if id = "A" then 2 else if id = "C" then 1 else 0

/-- An edge list with a cycle `C↔D` that is NOT reachable from the only
root `A`: the relation reachable from the roots is acyclic, so the walk
must terminate although no rank decreases along every edge globally. -/
def connsOffRootEx : List Conn := [⟨"A", "B"⟩, ⟨"C", "D"⟩, ⟨"D", "C"⟩]

/-- A ranking decreasing along the edges of `connsOffRootEx` reachable
from its root `A` (the off-root `C↔D` edges are unconstrained). -/
def rankOffRootEx (id : String) : Nat :=
  if id = "A" then 1 else 0

/-- How node `C` of `connsSharedEx` renders under `env0`. -/
def renderedCEx : RenderedNode := ⟨"C", "Unknown", "", "Unknown", "node", []⟩

/-- An environment whose latest telemetry for `X` holds a non-numeric
(string) value in its first entry. -/
def envBadTelEx : Env := ⟨[], [("X", [("note", TelemetryValue.str "hot")])], []⟩

/-- A single edge out of the badly-telemetered node `X`. -/
def connsBadTelEx : List Conn := [⟨"X", "Y"⟩]

/-- An edge whose source identifier is the empty string. -/
def connsEmptyIdEx : List Conn := [⟨"", "A"⟩]

/-! ### Characterizations of the graph builder -/

theorem mem_insertUniq {xs : List String} {x y : String} :
    y ∈ insertUniq xs x ↔ y ∈ xs ∨ y = x := by
  unfold insertUniq
  by_cases h : x ∈ xs
  · rw [if_pos h]
    constructor
    · exact Or.inl
    · rintro (hy | rfl)
      · exact hy
      · exact h
  · rw [if_neg h]
    simp

theorem mem_foldl_insertIds (conns : List Conn) (acc : List String) (x : String) :
    x ∈ conns.foldl (fun a c => insertUniq (insertUniq a c.source) c.target) acc ↔
      x ∈ acc ∨ ∃ c ∈ conns, c.source = x ∨ c.target = x := by
  induction conns generalizing acc with
  | nil => simp
  | cons c rest ih =>
    rw [List.foldl_cons, ih]
    simp only [mem_insertUniq, List.mem_cons]
    constructor
    · rintro (((hx | rfl) | rfl) | ⟨d, hd, hor⟩)
      · exact Or.inl hx
      · exact Or.inr ⟨c, Or.inl rfl, Or.inl rfl⟩
      · exact Or.inr ⟨c, Or.inl rfl, Or.inr rfl⟩
      · exact Or.inr ⟨d, Or.inr hd, hor⟩
    · rintro (hx | ⟨d, (rfl | hd), hor⟩)
      · exact Or.inl (Or.inl (Or.inl hx))
      · rcases hor with rfl | rfl
        · exact Or.inl (Or.inl (Or.inr rfl))
        · exact Or.inl (Or.inr rfl)
      · exact Or.inr ⟨d, hd, hor⟩

theorem mem_allIds {conns : List Conn} {x : String} :
    x ∈ allIds conns ↔ ∃ c ∈ conns, c.source = x ∨ c.target = x := by
  unfold allIds
  rw [mem_foldl_insertIds]
  simp

theorem conn_ids_mem_allIds {conns : List Conn} {c : Conn} (hc : c ∈ conns) :
    c.source ∈ allIds conns ∧ c.target ∈ allIds conns :=
  ⟨mem_allIds.mpr ⟨c, hc, Or.inl rfl⟩, mem_allIds.mpr ⟨c, hc, Or.inr rfl⟩⟩

theorem foldl_linkStep_children (univ : List String) (conns : List Conn)
    (st : LinkState) (h : ∀ c ∈ conns, c.source ∈ univ ∧ c.target ∈ univ)
    (s : String) :
    (conns.foldl (linkStep univ) st).children s
      = st.children s ++ (conns.filter (fun c => c.source == s)).map (fun c => c.target) := by
  induction conns generalizing st with
  | nil => simp
  | cons c rest ih =>
    rw [List.foldl_cons, ih _ (fun d hd => h d (List.mem_cons_of_mem _ hd))]
    have hc := h c (List.mem_cons_self _ _)
    unfold linkStep
    rw [if_pos hc]
    by_cases hs : c.source = s
    · subst hs
      rw [List.filter_cons, if_pos (by simp)]
      simp
    · rw [List.filter_cons, if_neg (by simpa using hs)]
      simp [Ne.symm hs]

theorem foldl_linkStep_childTargets (univ : List String) (conns : List Conn)
    (st : LinkState) (h : ∀ c ∈ conns, c.source ∈ univ ∧ c.target ∈ univ)
    (t : String) :
    t ∈ (conns.foldl (linkStep univ) st).childTargets ↔
      t ∈ st.childTargets ∨ ∃ c ∈ conns, c.target = t := by
  induction conns generalizing st with
  | nil => simp
  | cons c rest ih =>
    rw [List.foldl_cons, ih _ (fun d hd => h d (List.mem_cons_of_mem _ hd))]
    have hc := h c (List.mem_cons_self _ _)
    unfold linkStep
    rw [if_pos hc]
    simp only [mem_insertUniq, List.mem_cons]
    constructor
    · rintro ((ht | rfl) | ⟨d, hd, rfl⟩)
      · exact Or.inl ht
      · exact Or.inr ⟨c, Or.inl rfl, rfl⟩
      · exact Or.inr ⟨d, Or.inr hd, rfl⟩
    · rintro (ht | ⟨d, (rfl | hd), rfl⟩)
      · exact Or.inl (Or.inl ht)
      · exact Or.inl (Or.inr rfl)
      · exact Or.inr ⟨d, hd, rfl⟩

theorem foldl_linkStep_parent (univ : List String) (conns : List Conn)
    (st : LinkState) (h : ∀ c ∈ conns, c.source ∈ univ ∧ c.target ∈ univ)
    (t : String) :
    (conns.foldl (linkStep univ) st).parent t
      = (conns.reverse.find? (fun c => c.target == t)).elim (st.parent t)
          (fun c => some c.source) := by
  induction conns generalizing st with
  | nil => simp
  | cons c rest ih =>
    rw [List.foldl_cons, ih _ (fun d hd => h d (List.mem_cons_of_mem _ hd)),
      List.reverse_cons, List.find?_append]
    have hc := h c (List.mem_cons_self _ _)
    cases hf : rest.reverse.find? (fun c => c.target == t) with
    | some d => simp [Option.or]
    | none =>
      simp only [Option.or, Option.elim]
      unfold linkStep
      rw [if_pos hc]
      by_cases hct : c.target = t
      · subst hct
        rw [List.find?_cons_of_pos _ (by simp)]
        simp
      · rw [List.find?_cons_of_neg _ (by simpa using hct)]
        simp [Ne.symm hct]

theorem buildForest_children (env : Env) (conns : List Conn) (s : String) :
    (buildForest env conns).children s
      = (conns.filter (fun c => c.source == s)).map (fun c => c.target) := by
  show (buildLinks conns).children s = _
  unfold buildLinks
  rw [foldl_linkStep_children _ _ _ (fun c hc => conn_ids_mem_allIds hc)]
  rfl

theorem buildForest_mem_childTargets (conns : List Conn) (t : String) :
    t ∈ (buildLinks conns).childTargets ↔ ∃ c ∈ conns, c.target = t := by
  unfold buildLinks
  rw [foldl_linkStep_childTargets _ _ _ (fun c hc => conn_ids_mem_allIds hc)]
  simp [initLinkState]

theorem buildForest_parent (env : Env) (conns : List Conn) (t : String) :
    (buildForest env conns).parent t
      = (conns.reverse.find? (fun c => c.target == t)).map (fun c => c.source) := by
  show (buildLinks conns).parent t = _
  unfold buildLinks
  rw [foldl_linkStep_parent _ _ _ (fun c hc => conn_ids_mem_allIds hc)]
  cases conns.reverse.find? (fun c => c.target == t) <;> rfl

theorem buildForest_nodeData (env : Env) (conns : List Conn) (id : String) :
    (buildForest env conns).nodeData id
      = (env.twinInstances.lookup id).getD emptyTwin := rfl

theorem buildForest_nodeIds (env : Env) (conns : List Conn) :
    (buildForest env conns).nodeIds = allIds conns := rfl

theorem buildForest_mem_roots (env : Env) (conns : List Conn) (x : String) :
    x ∈ (buildForest env conns).roots ↔
      x ∈ allIds conns ∧ ¬∃ c ∈ conns, c.target = x := by
  show x ∈ (allIds conns).filter _ ↔ _
  rw [List.mem_filter]
  constructor
  · rintro ⟨hmem, hb⟩
    refine ⟨hmem, fun hex => ?_⟩
    rw [Bool.not_eq_true'] at hb
    have helem : (buildLinks conns).childTargets.elem x = true :=
      List.elem_iff.mpr ((buildForest_mem_childTargets conns x).mpr hex)
    rw [show (buildLinks conns).childTargets.contains x
        = (buildLinks conns).childTargets.elem x from rfl] at hb
    rw [hb] at helem
    cases helem
  · rintro ⟨hmem, hnex⟩
    refine ⟨hmem, ?_⟩
    rw [Bool.not_eq_true']
    rw [show (buildLinks conns).childTargets.contains x = (buildLinks conns).childTargets.elem x from rfl]
    cases he : (buildLinks conns).childTargets.elem x with
    | false => rfl
    | true =>
      exact absurd ((buildForest_mem_childTargets conns x).mp (List.elem_iff.mp he)) hnex

theorem mem_children_conns {env : Env} {conns : List Conn} {s t : String}
    (h : t ∈ (buildForest env conns).children s) :
    ∃ c ∈ conns, c.source = s ∧ c.target = t := by
  rw [buildForest_children] at h
  obtain ⟨c, hc, rfl⟩ := List.mem_map.mp h
  obtain ⟨hmem, hbeq⟩ := List.mem_filter.mp hc
  exact ⟨c, hmem, beq_iff_eq.mp hbeq, rfl⟩

/-! ### Characterizations of the tooltip builder and renderer -/

theorem mapM_telLine_of_all_isNum :
    ∀ {l : List (String × TelemetryValue)},
      l.all (fun kv => kv.2.isNum) = true →
      (l.mapM fun kv =>
          (formatFixed1 kv.2).map (fun v => kv.1 ++ ": " ++ v ++ getUnit kv.1))
        = some (l.map fun kv =>
            kv.1 ++ ": " ++ (formatFixed1 kv.2).getD "" ++ getUnit kv.1) := by
  intro l
  induction l with
  | nil => intro _; rfl
  | cons kv rest ih =>
    intro h
    rw [List.all_cons, Bool.and_eq_true] at h
    obtain ⟨h1, h2⟩ := h
    rw [List.mapM_cons, ih h2]
    cases hv : kv.2 with
    | num t => simp [formatFixed1, hv]
    | str s => rw [hv] at h1; simp [TelemetryValue.isNum] at h1

theorem telLines_of_all_isNum {tel : List (String × TelemetryValue)}
    (h : (tel.take 3).all (fun kv => kv.2.isNum) = true) :
    telLines tel = some (telItems tel) := by
  unfold telLines telItems
  exact mapM_telLine_of_all_isNum h

theorem tooltipItems_of_all_isNum {props : List (String × String)}
    {tel : List (String × TelemetryValue)}
    (h : (tel.take 3).all (fun kv => kv.2.isNum) = true) :
    tooltipItems props tel = some (propLines props ++ telItems tel) := by
  unfold tooltipItems
  rw [telLines_of_all_isNum h]
  rfl

theorem telItems_length (tel : List (String × TelemetryValue)) :
    (telItems tel).length ≤ 3 := by
  unfold telItems
  rw [List.length_map, List.length_take]
  exact min_le_left _ _

theorem propLines_length (props : List (String × String)) :
    (propLines props).length = (props.filter (fun kv => kv.1 != "status")).length := by
  unfold propLines
  rw [List.length_map]

theorem except_bind_ok {α β : Type} (a : α) (g : α → Except RenderErr β) :
    (Except.ok a >>= g) = g a := rfl

theorem except_bind_err {α β : Type} (e : RenderErr) (g : α → Except RenderErr β) :
    ((Except.error e : Except RenderErr α) >>= g) = Except.error e := rfl

theorem exceptBind_ok {α β : Type} (a : α) (g : α → Except RenderErr β) :
    (Except.ok a).bind g = g a := rfl

theorem exceptBind_err {α β : Type} (e : RenderErr) (g : α → Except RenderErr β) :
    ((Except.error e : Except RenderErr α).bind g) = Except.error e := rfl

/-- Unfolding of one step of `_render_node_html` at positive fuel. -/
theorem renderNode_succ (env : Env) (f : Forest) (fuel : Nat) (id : String) :
    renderNode env f (fuel + 1) id =
      (match buildTooltip ((env.models.lookup (f.nodeData id).modelId).getD "Unknown")
          (f.nodeData id).properties ((env.telemetryData.lookup id).getD []) with
      | none => .error .typeError
      | some tooltip =>
        ((f.children id).mapM (fun c => renderNode env f fuel c)).bind
          (fun kids => .ok ⟨id,
            (env.models.lookup (f.nodeData id).modelId).getD "Unknown",
            ((f.nodeData id).properties.lookup "status").getD "", tooltip,
            nodeClass id (((f.nodeData id).properties.lookup "status").getD ""), kids⟩)) := rfl

/-- When the tooltip build raises (`ValueError`), the node render raises
before recursing. -/
theorem renderNode_succ_of_none {env : Env} {f : Forest} {fuel : Nat} {id : String}
    (htt : buildTooltip ((env.models.lookup (f.nodeData id).modelId).getD "Unknown")
        (f.nodeData id).properties ((env.telemetryData.lookup id).getD []) = none) :
    renderNode env f (fuel + 1) id = .error .typeError := by
  rw [renderNode_succ, htt]

/-- When the tooltip build succeeds, the node render is the rendered
children bound under the node record. -/
theorem renderNode_succ_of_some {env : Env} {f : Forest} {fuel : Nat} {id : String}
    {tt : String}
    (htt : buildTooltip ((env.models.lookup (f.nodeData id).modelId).getD "Unknown")
        (f.nodeData id).properties ((env.telemetryData.lookup id).getD []) = some tt) :
    renderNode env f (fuel + 1) id
      = ((f.children id).mapM (fun c => renderNode env f fuel c)).bind
          (fun kids => .ok ⟨id,
            (env.models.lookup (f.nodeData id).modelId).getD "Unknown",
            ((f.nodeData id).properties.lookup "status").getD "", tt,
            nodeClass id (((f.nodeData id).properties.lookup "status").getD ""), kids⟩) := by
  rw [renderNode_succ, htt]

theorem mapM_render_ne_outOfFuel {l : List String}
    {g : String → Except RenderErr RenderedNode}
    (h : ∀ x ∈ l, g x ≠ .error .outOfFuel) :
    l.mapM g ≠ .error .outOfFuel := by
  induction l with
  | nil =>
    rw [List.mapM_nil]
    intro hc
    cases hc
  | cons a rest ih =>
    rw [List.mapM_cons]
    cases hg : g a with
    | error e =>
      rw [except_bind_err]
      intro hc
      injection hc with he
      exact h a (List.mem_cons_self _ _) (by rw [hg, he])
    | ok b =>
      rw [except_bind_ok]
      cases hr : rest.mapM g with
      | error e =>
        rw [except_bind_err]
        intro hc
        injection hc with he
        apply ih (fun x hx => h x (List.mem_cons_of_mem _ hx))
        rw [hr, he]
      | ok bs =>
        rw [except_bind_ok]
        intro hc
        cases hc

/-- Acyclicity of the part of the edge relation reachable from a start
node (witnessed by a rank decreasing along every reachable edge) bounds
the recursion depth below that node: with more fuel than the rank the
walk never runs out.  Edges not reachable from the start node are
unconstrained. -/
theorem renderNode_reach_rank_no_outOfFuel (env : Env) (conns : List Conn)
    (rank : String → Nat) (root : String)
    (hr : ∀ c ∈ conns, Reaches conns root c.source →
        rank c.target < rank c.source) :
    ∀ fuel id, Reaches conns root id → rank id < fuel →
      renderNode env (buildForest env conns) fuel id ≠ .error .outOfFuel := by
  intro fuel
  induction fuel with
  | zero => exact fun id _ h => absurd h (Nat.not_lt_zero _)
  | succ n ih =>
    intro id hreach hlt
    cases htt : buildTooltip
        ((env.models.lookup ((buildForest env conns).nodeData id).modelId).getD "Unknown")
        ((buildForest env conns).nodeData id).properties
        ((env.telemetryData.lookup id).getD []) with
    | none =>
      rw [renderNode_succ_of_none htt]
      intro hc
      injection hc with he
      cases he
    | some tt =>
      rw [renderNode_succ_of_some htt]
      have hkids : ((buildForest env conns).children id).mapM
          (fun c => renderNode env (buildForest env conns) n c) ≠ .error .outOfFuel := by
        apply mapM_render_ne_outOfFuel
        intro x hx
        obtain ⟨c, hc, hcs, hct⟩ := mem_children_conns hx
        have hrsrc : Reaches conns root c.source := by
          rw [hcs]
          exact hreach
        have hrx : Reaches conns root x := by
          rw [← hct]
          exact Reaches.step hrsrc hc
        apply ih x hrx
        have h1 : rank x < rank id := by
          have := hr c hc hrsrc
          rw [hcs, hct] at this
          exact this
        omega
      cases hk : ((buildForest env conns).children id).mapM
          (fun c => renderNode env (buildForest env conns) n c) with
      | error e =>
        rw [exceptBind_err]
        intro hc
        injection hc with he
        exact hkids (by rw [hk, he])
      | ok ks =>
        rw [exceptBind_ok]
        intro hc
        cases hc

theorem renderSizeList_eq_sum (ks : List RenderedNode) :
    renderSizeList ks = (ks.map renderSize).sum := by
  induction ks with
  | nil => rfl
  | cons k ks ih =>
    rw [List.map_cons, List.sum_cons, ← ih]
    rfl

/-- Pushing a pointwise `Except`/`Option` correspondence through
`mapM`. -/
theorem mapM_ok_option {α β γ : Type} {g1 : α → Except RenderErr β}
    {g2 : α → Option γ} {msr : β → γ}
    (hp : ∀ a b, g1 a = .ok b → g2 a = some (msr b)) :
    ∀ (cs : List α) (kids : List β),
      cs.mapM g1 = .ok kids → cs.mapM g2 = some (kids.map msr) := by
  intro cs
  induction cs with
  | nil =>
    intro kids h
    rw [List.mapM_nil] at h
    injection h with h1
    subst h1
    rfl
  | cons a rest ih =>
    intro kids h
    rw [List.mapM_cons] at h
    cases hg : g1 a with
    | error e =>
      rw [hg] at h
      cases h
    | ok b =>
      rw [hg] at h
      cases hr : rest.mapM g1 with
      | error e =>
        rw [hr] at h
        cases h
      | ok bs =>
        rw [hr] at h
        injection h with h1
        subst h1
        rw [List.mapM_cons, hp a b hg, ih bs hr]
        rfl

/-- The renderer does exactly one unit of work per node occurrence: a
successful render of a node yields one rendered record per occurrence
the fuel-bounded walk visits below it. -/
theorem renderNode_ok_occCount (env : Env) (f : Forest) :
    ∀ fuel id r, renderNode env f fuel id = .ok r →
      occCount f fuel id = some (renderSize r) := by
  intro fuel
  induction fuel with
  | zero =>
    intro id r h
    simp [renderNode] at h
  | succ n ih =>
    intro id r h
    cases htt : buildTooltip
        ((env.models.lookup (f.nodeData id).modelId).getD "Unknown")
        (f.nodeData id).properties
        ((env.telemetryData.lookup id).getD []) with
    | none =>
      rw [renderNode_succ_of_none htt] at h
      cases h
    | some tt =>
      rw [renderNode_succ_of_some htt] at h
      cases hk : (f.children id).mapM (fun c => renderNode env f n c) with
      | error e =>
        rw [hk, exceptBind_err] at h
        cases h
      | ok kids =>
        rw [hk, exceptBind_ok] at h
        injection h with h1
        subst h1
        rw [occCount, mapM_ok_option (fun a b hab => ih a b hab) _ kids hk]
        rw [Option.map_some']
        rw [show renderSize ⟨id,
            (env.models.lookup (f.nodeData id).modelId).getD "Unknown",
            ((f.nodeData id).properties.lookup "status").getD "", tt,
            nodeClass id (((f.nodeData id).properties.lookup "status").getD ""), kids⟩
          = 1 + renderSizeList kids from rfl]
        rw [renderSizeList_eq_sum]

/-- On the cyclic example the walk runs out of fuel no matter how much
fuel it is given: the Python recursion never terminates. -/
theorem renderNode_cycEx_diverges :
    ∀ fuel, renderNode env0 (buildForest env0 connsCycEx) fuel "A" = .error .outOfFuel
      ∧ renderNode env0 (buildForest env0 connsCycEx) fuel "B" = .error .outOfFuel := by
  intro fuel
  induction fuel with
  | zero => exact ⟨rfl, rfl⟩
  | succ n ih =>
    have hchA : (buildForest env0 connsCycEx).children "A" = ["B"] := by decide
    have hchB : (buildForest env0 connsCycEx).children "B" = ["A"] := by decide
    have httA : buildTooltip
        ((env0.models.lookup ((buildForest env0 connsCycEx).nodeData "A").modelId).getD "Unknown")
        ((buildForest env0 connsCycEx).nodeData "A").properties
        ((env0.telemetryData.lookup "A").getD []) = some "Unknown" := rfl
    have httB : buildTooltip
        ((env0.models.lookup ((buildForest env0 connsCycEx).nodeData "B").modelId).getD "Unknown")
        ((buildForest env0 connsCycEx).nodeData "B").properties
        ((env0.telemetryData.lookup "B").getD []) = some "Unknown" := rfl
    constructor
    · rw [renderNode_succ_of_some httA, hchA]
      rw [List.mapM_cons, List.mapM_nil]
      simp only [ih.2, except_bind_err, exceptBind_err]
    · rw [renderNode_succ_of_some httB, hchB]
      rw [List.mapM_cons, List.mapM_nil]
      simp only [ih.1, except_bind_err, exceptBind_err]

/-- On the cyclic example the whole forest walk (from the root `R`,
whose subtree reaches the `A`/`B` cycle) runs out of any amount of
fuel. -/
theorem renderForest_cycEx_diverges :
    ∀ fuel, renderForest env0 (buildForest env0 connsCycEx) fuel
      = .error .outOfFuel := by
  intro fuel
  cases fuel with
  | zero => rfl
  | succ n =>
    have hroots : (buildForest env0 connsCycEx).roots = ["R"] := by decide
    have httR : buildTooltip
        ((env0.models.lookup ((buildForest env0 connsCycEx).nodeData "R").modelId).getD "Unknown")
        ((buildForest env0 connsCycEx).nodeData "R").properties
        ((env0.telemetryData.lookup "R").getD []) = some "Unknown" := rfl
    have hchR : (buildForest env0 connsCycEx).children "R" = ["A"] := by decide
    have hR : renderNode env0 (buildForest env0 connsCycEx) (n + 1) "R"
        = .error .outOfFuel := by
      rw [renderNode_succ_of_some httR, hchR]
      rw [List.mapM_cons, List.mapM_nil]
      simp only [(renderNode_cycEx_diverges n).1, except_bind_err, exceptBind_err]
    unfold renderForest
    rw [hroots, List.mapM_cons, List.mapM_nil]
    simp only [hR, except_bind_err]

/-- In `connsOffRootEx` the nodes reachable from `A` (or `B`) stay in
`{A, B}`: the off-root cycle `C↔D` is never entered. -/
theorem reaches_offRootEx_inv :
    ∀ s t, Reaches connsOffRootEx s t → (s = "A" ∨ s = "B") →
      t = "A" ∨ t = "B" := by
  intro s t h
  induction h with
  | refl => exact fun hs => hs
  | step h1 h2 ih =>
    intro hs
    have hsrc := ih hs
    fin_cases h2
    · exact Or.inr rfl
    · exact absurd hsrc (by decide)
    · exact absurd hsrc (by decide)

/-- The walk over `connsOffRootEx` from its root terminates even though
no rank decreases along every edge globally: the cycle is off-root. -/
theorem renderForest_offRootEx_terminates :
    renderForest env0 (buildForest env0 connsOffRootEx) 2
      ≠ .error .outOfFuel := by
  unfold renderForest
  apply mapM_render_ne_outOfFuel
  intro r hrmem
  have hroots : (buildForest env0 connsOffRootEx).roots = ["A"] := by decide
  rw [hroots] at hrmem
  have hrA : r = "A" := by simpa using hrmem
  subst hrA
  refine renderNode_reach_rank_no_outOfFuel env0 connsOffRootEx rankOffRootEx "A"
    (fun c hc hreach => ?_) 2 "A" (Reaches.refl "A") (by decide)
  have hsrc := reaches_offRootEx_inv "A" c.source hreach (Or.inl rfl)
  fin_cases hc
  · decide
  · exact absurd hsrc (by decide)
  · exact absurd hsrc (by decide)

/-! ### The claims -/

/-- C1: for every edge list, a node is in the root sequence iff its
identifier never appears as a target; on edges `[(A,B),(A,C),(C,D)]` the
root set is exactly `{A}`, A's children are `[B,C]` in that order and
C's child sequence is `[D]`. -/
theorem roots_iff_never_target :
    (∀ (env : Env) (conns : List Conn) (x : String),
        x ∈ (buildForest env conns).roots ↔
          x ∈ allIds conns ∧ ¬∃ c ∈ conns, c.target = x)
    ∧ (buildForest env0 connsRootEx).roots = ["A"]
    ∧ (buildForest env0 connsRootEx).children "A" = ["B", "C"]
    ∧ (buildForest env0 connsRootEx).children "C" = ["D"] :=
  ⟨fun env conns x => buildForest_mem_roots env conns x, by decide, by decide, by decide⟩

/-- C3: the child sequence of a node is exactly the targets of the edges
whose source is that node, in edge-list order, and a duplicated edge
produces a duplicate child entry. -/
theorem children_follow_edge_order :
    (∀ (env : Env) (conns : List Conn) (s : String),
        (buildForest env conns).children s
          = (conns.filter (fun c => c.source == s)).map (fun c => c.target))
    ∧ (buildForest env0 connsDupEx).children "A" = ["B", "B"] :=
  ⟨fun env conns s => buildForest_children env conns s, by decide⟩

/-- C4: when the parent/child relation reachable from the roots is
acyclic — witnessed by a rank decreasing along every edge whose source
is reachable from some root; edges not reachable from any root are
unconstrained — the recursive rendering walk over the forest terminates
(with fuel above the roots' ranks it never runs out), and its work is
one rendered record per node occurrence reachable from the roots: a
successful render yields exactly the occurrence counts of the walk.
The precondition constrains only the reachable part: on the concrete
list `[(A,B),(C,D),(D,C)]`, whose `C↔D` cycle is off-root, the walk
still terminates.  No cycle detection is performed: on a concrete input
whose cycle is reachable from the root, the walk exhausts every amount
of fuel, so termination holds only under the acyclicity
precondition. -/
theorem render_walk_terminates_on_reachable_acyclic (env : Env)
    (conns : List Conn) (rank : String → Nat) (fuel : Nat)
    (hr : ∀ c ∈ conns,
        (∃ r ∈ (buildForest env conns).roots, Reaches conns r c.source) →
        rank c.target < rank c.source)
    (hf : ∀ r ∈ (buildForest env conns).roots, rank r < fuel) :
    renderForest env (buildForest env conns) fuel ≠ .error .outOfFuel
    ∧ (∀ rs, renderForest env (buildForest env conns) fuel = .ok rs →
        (buildForest env conns).roots.mapM
            (fun r => occCount (buildForest env conns) fuel r)
          = some (rs.map renderSize))
    ∧ renderForest env0 (buildForest env0 connsOffRootEx) 2 ≠ .error .outOfFuel
    ∧ (∀ fuel2, renderForest env0 (buildForest env0 connsCycEx) fuel2
          = .error .outOfFuel) := by
  refine ⟨?_, ?_, renderForest_offRootEx_terminates, renderForest_cycEx_diverges⟩
  · unfold renderForest
    apply mapM_render_ne_outOfFuel
    intro r hrmem
    exact renderNode_reach_rank_no_outOfFuel env conns rank r
      (fun c hc hreach => hr c hc ⟨r, hrmem, hreach⟩) fuel r
      (Reaches.refl r) (hf r hrmem)
  · intro rs h
    exact mapM_ok_option
      (fun a b hab => renderNode_ok_occCount env (buildForest env conns) fuel a b hab)
      _ rs h

/-- C4 witness: on the acyclic example with fuel 3 above the root's rank
the walk does not run out of fuel, and a successful render reports the
occurrence counts. -/
theorem render_walk_terminates_on_reachable_acyclic_witness :
    renderForest env0 (buildForest env0 connsRootEx) 3 ≠ .error .outOfFuel
    ∧ (∀ rs, renderForest env0 (buildForest env0 connsRootEx) 3 = .ok rs →
        (buildForest env0 connsRootEx).roots.mapM
            (fun r => occCount (buildForest env0 connsRootEx) 3 r)
          = some (rs.map renderSize))
    ∧ renderForest env0 (buildForest env0 connsOffRootEx) 2 ≠ .error .outOfFuel
    ∧ (∀ fuel2, renderForest env0 (buildForest env0 connsCycEx) fuel2
          = .error .outOfFuel) :=
  render_walk_terminates_on_reachable_acyclic env0 connsRootEx rankRootEx 3
    (fun c hc _ => (by decide : ∀ c ∈ connsRootEx,
        rankRootEx c.target < rankRootEx c.source) c hc)
    (by decide)

/-- C5: on edges `[(A,C),(B,C)]` the single node `C` (stored once in the
forest) is a child of both `A` and `B`, and the rendered output contains
two structurally identical occurrences of C's rendering, one under each
parent. -/
theorem shared_child_rendered_twice :
    (buildForest env0 connsSharedEx).children "A" = ["C"]
    ∧ (buildForest env0 connsSharedEx).children "B" = ["C"]
    ∧ (buildForest env0 connsSharedEx).nodeIds.count "C" = 1
    ∧ renderForest env0 (buildForest env0 connsSharedEx) 2
        = .ok [⟨"A", "Unknown", "", "Unknown", "node", [renderedCEx]⟩,
               ⟨"B", "Unknown", "", "Unknown", "node", [renderedCEx]⟩] :=
  ⟨by decide, by decide, by decide, by rfl⟩

/-- C6: a node whose identifier contains "pump" (case-insensitively) is
tagged `pump-node` with a `running`/`stopped` state tag exactly when its
status is exactly that string (any other or absent status gets neither
state tag); otherwise an identifier containing "tank" is tagged
`tank-node`; all other identifiers get only the generic `node` tag. -/
theorem nodeClass_tag_rules (id status : String) :
    (strContains (lowerStr id) "pump" = true →
        (status = "running" → classTags id status = ["node", "pump-node", "running"])
        ∧ (status = "stopped" → classTags id status = ["node", "pump-node", "stopped"])
        ∧ (status ≠ "running" → status ≠ "stopped" →
            classTags id status = ["node", "pump-node"]))
    ∧ (strContains (lowerStr id) "pump" = false →
        strContains (lowerStr id) "tank" = true →
          classTags id status = ["node", "tank-node"])
    ∧ (strContains (lowerStr id) "pump" = false →
        strContains (lowerStr id) "tank" = false →
          classTags id status = ["node"]) := by
  refine ⟨fun hp => ⟨fun hs => ?_, fun hs => ?_, fun hs1 hs2 => ?_⟩,
    fun hp ht => ?_, fun hp ht => ?_⟩
  · subst hs
    simp only [classTags, nodeClass, hp, if_true]
    decide
  · subst hs
    simp only [classTags, nodeClass, hp, if_true]
    decide
  · simp only [classTags, nodeClass, hp, if_true,
      beq_eq_false_iff_ne.mpr hs1, beq_eq_false_iff_ne.mpr hs2]
    decide
  · simp only [classTags, nodeClass, hp, ht]
    rw [if_neg (by decide : ¬(false = true)), if_pos trivial]
    decide
  · simp only [classTags, nodeClass, hp, ht]
    rw [if_neg (by decide : ¬(false = true)), if_neg (by decide : ¬(false = true))]
    decide

/-- C6 witness: a concrete pump with status `"running"` gets exactly the
generic, pump and running tags. -/
theorem nodeClass_tag_rules_witness :
    classTags "pump-001" "running" = ["node", "pump-node", "running"] :=
  ((nodeClass_tag_rules "pump-001" "running").1 (by decide)).1 rfl

/-- C7: missing data never raises — an identifier absent from the twin
lookup yields a node with the empty payload, and rendering a (leaf) node
whose model id resolves to no registry entry substitutes the label
`"Unknown"` and still returns a rendered node. -/
theorem missing_data_renders_with_defaults (env : Env) (conns : List Conn)
    (id : String) (fuel : Nat)
    (htwin : env.twinInstances.lookup id = none)
    (hmodel : env.models.lookup "" = none)
    (htel : env.telemetryData.lookup id = none)
    (hch : (buildForest env conns).children id = []) :
    (buildForest env conns).nodeData id = emptyTwin
    ∧ renderNode env (buildForest env conns) (fuel + 1) id
        = .ok ⟨id, "Unknown", "", "Unknown", nodeClass id "", []⟩ := by
  have hm2 : env.models.lookup emptyTwin.modelId = none := hmodel
  have hdata : (buildForest env conns).nodeData id = emptyTwin := by
    rw [buildForest_nodeData, htwin]
    rfl
  refine ⟨hdata, ?_⟩
  have htt : buildTooltip
      ((env.models.lookup ((buildForest env conns).nodeData id).modelId).getD "Unknown")
      ((buildForest env conns).nodeData id).properties
      ((env.telemetryData.lookup id).getD []) = some "Unknown" := by
    rw [hdata, htel, hm2]
    rfl
  rw [renderNode_succ_of_some htt, hch, hdata, hm2]
  rfl

/-- C7 witness: node `D` of the example edges has no twin payload and no
registered model under the empty environment, yet renders. -/
theorem missing_data_renders_with_defaults_witness :
    (buildForest env0 connsRootEx).nodeData "D" = emptyTwin
    ∧ renderNode env0 (buildForest env0 connsRootEx) 1 "D"
        = .ok ⟨"D", "Unknown", "", "Unknown", nodeClass "D" "", []⟩ :=
  missing_data_renders_with_defaults env0 connsRootEx "D" 0 rfl rfl rfl (by decide)

/-- C8 counterexample: on the edge `[("","A")]` the builder raises no
`ValidationError` — it silently creates a node for the empty identifier,
links it, and even makes it the root. -/
theorem empty_id_silently_accepted :
    (buildForest env0 connsEmptyIdEx).nodeIds = ["", "A"]
    ∧ (buildForest env0 connsEmptyIdEx).children "" = ["A"]
    ∧ (buildForest env0 connsEmptyIdEx).roots = [""] := by
  refine ⟨by decide, by decide, by decide⟩

/-- C8 (amended): the builder performs no identifier validation — every
source and target of the edge list, the empty identifier included, gets
a node and is linked normally, and no error is surfaced (the build is a
total function). -/
theorem build_never_validates (env : Env) (conns : List Conn)
    (c : Conn) (hc : c ∈ conns) :
    c.source ∈ (buildForest env conns).nodeIds
    ∧ c.target ∈ (buildForest env conns).nodeIds
    ∧ c.target ∈ (buildForest env conns).children c.source := by
  refine ⟨?_, ?_, ?_⟩
  · rw [buildForest_nodeIds]
    exact (conn_ids_mem_allIds hc).1
  · rw [buildForest_nodeIds]
    exact (conn_ids_mem_allIds hc).2
  · rw [buildForest_children]
    exact List.mem_map.mpr ⟨c, List.mem_filter.mpr ⟨hc, by simp⟩, rfl⟩

/-- C8 witness: the amended statement instantiated on the empty-id
edge. -/
theorem build_never_validates_witness :
    "" ∈ (buildForest env0 connsEmptyIdEx).nodeIds
    ∧ "A" ∈ (buildForest env0 connsEmptyIdEx).nodeIds
    ∧ "A" ∈ (buildForest env0 connsEmptyIdEx).children "" :=
  build_never_validates env0 connsEmptyIdEx ⟨"", "A"⟩ (by decide)

/-- C9: a node holds at most one parent back-reference (an `Option`):
after the build it is the source of the last edge in edge-list order
targeting the node (none when no edge does), while every earlier source
still keeps the node in its child sequence. -/
theorem parent_is_last_edge_source (env : Env) (conns : List Conn) :
    (∀ t, (buildForest env conns).parent t
        = (conns.reverse.find? (fun c => c.target == t)).map (fun c => c.source))
    ∧ (∀ c ∈ conns, c.target ∈ (buildForest env conns).children c.source) := by
  refine ⟨fun t => buildForest_parent env conns t, fun c hc => ?_⟩
  rw [buildForest_children]
  exact List.mem_map.mpr ⟨c, List.mem_filter.mpr ⟨hc, by simp⟩, rfl⟩

/-- C9 witness: on `[(A,C),(B,C)]` the surviving back-reference of `C`
is `B` (the later edge), while `A` still lists `C` as a child. -/
theorem parent_is_last_edge_source_witness :
    (buildForest env0 connsSharedEx).parent "C" = some "B"
    ∧ "C" ∈ (buildForest env0 connsSharedEx).children "A" :=
  ⟨by rw [(parent_is_last_edge_source env0 connsSharedEx).1 "C"]; decide,
   (parent_is_last_edge_source env0 connsSharedEx).2 ⟨"A", "C"⟩ (by decide)⟩

/-- C2 counterexample: a node with only a `"status"` property and no
telemetry has an empty item list, yet its tooltip is the model display
name rather than the empty join the claim prescribes. -/
theorem tooltip_fallback_counterexample :
    tooltipItems [("status", "running")] [] = some []
    ∧ buildTooltip "Pump" [("status", "running")] [] = some "Pump"
    ∧ "Pump" ≠ String.intercalate "\\A" [] := by
  refine ⟨rfl, rfl, by decide⟩

/-- C2 (amended): when the first three telemetry values of a node are
numeric, the tooltip item list is one line per non-status property
followed by at most the first three telemetry entries, each suffixed
with the first-match keyword-table unit; the items are joined with
`"\A"` except that an empty item list falls back to the model display
name; the item count is at most (non-status properties) + 3. -/
theorem tooltip_lines_and_bound (modelName : String)
    (props : List (String × String)) (tel : List (String × TelemetryValue))
    (h : (tel.take 3).all (fun kv => kv.2.isNum) = true) :
    tooltipItems props tel = some (propLines props ++ telItems tel)
    ∧ buildTooltip modelName props tel
        = some (if (propLines props ++ telItems tel).isEmpty then modelName
                else String.intercalate "\\A" (propLines props ++ telItems tel))
    ∧ (propLines props ++ telItems tel).length
        ≤ (props.filter (fun kv => kv.1 != "status")).length + 3 := by
  refine ⟨tooltipItems_of_all_isNum h, ?_, ?_⟩
  · unfold buildTooltip
    rw [tooltipItems_of_all_isNum h]
    rfl
  · rw [List.length_append, propLines_length]
    have := telItems_length tel
    omega

/-- C2 witness: the amended statement instantiated on a pump twin with
one temperature sample. -/
theorem tooltip_lines_and_bound_witness :
    tooltipItems [("status", "running"), ("ratedPower", "20.0")]
        [("oilTemp", TelemetryValue.num 215)]
      = some (propLines [("status", "running"), ("ratedPower", "20.0")]
          ++ telItems [("oilTemp", TelemetryValue.num 215)])
    ∧ buildTooltip "Pump" [("status", "running"), ("ratedPower", "20.0")]
        [("oilTemp", TelemetryValue.num 215)]
      = some (if (propLines [("status", "running"), ("ratedPower", "20.0")]
              ++ telItems [("oilTemp", TelemetryValue.num 215)]).isEmpty then "Pump"
            else String.intercalate "\\A"
              (propLines [("status", "running"), ("ratedPower", "20.0")]
                ++ telItems [("oilTemp", TelemetryValue.num 215)]))
    ∧ (propLines [("status", "running"), ("ratedPower", "20.0")]
        ++ telItems [("oilTemp", TelemetryValue.num 215)]).length
        ≤ ([("status", "running"), ("ratedPower", "20.0")].filter
            (fun kv => kv.1 != "status")).length + 3 :=
  tooltip_lines_and_bound "Pump" [("status", "running"), ("ratedPower", "20.0")]
    [("oilTemp", TelemetryValue.num 215)] (by decide)

/-- C10: the tooltip build is total when every value among the first
three telemetry entries is numeric, and on a concrete node whose first
telemetry value is a string the render raises (`ValueError`) instead of
degrading silently. -/
theorem render_raises_on_nonnumeric_telemetry :
    (∀ tel : List (String × TelemetryValue),
        (tel.take 3).all (fun kv => kv.2.isNum) = true →
          (telLines tel).isSome = true)
    ∧ renderNode envBadTelEx (buildForest envBadTelEx connsBadTelEx) 5 "X"
        = .error .typeError := by
  constructor
  · intro tel h
    rw [telLines_of_all_isNum h]
    rfl
  · rfl

/-- C10 witness: the totality half instantiated on a single numeric
sample. -/
theorem render_raises_on_nonnumeric_telemetry_witness :
    (telLines [("oilTemp", TelemetryValue.num 215)]).isSome = true :=
  render_raises_on_nonnumeric_telemetry.1 [("oilTemp", TelemetryValue.num 215)]
    (by decide)

end DtdlTree
